import Mathlib

/-!
# xatlas viewer (`extra/viewer.cpp`): camera, input and error-box model

A shallow embedding of the pure parts of `extra/viewer.cpp`.

Numbers: every `float`/`double` of the source is read as an element of an
ordered field `α` with exact arithmetic (`ℚ` for evaluation, `ℝ` for the
trigonometric statements).  Rounding, infinities and NaN are outside the model.

External libraries (`bx`, `bgfx`, GLFW, Dear ImGui, libc) are not part of the
repository; the little that the viewer uses of them is modelled here and marked
as such.
-/

namespace Viewer

/-! ## bx math -/

/-- The `bx::Vec3` value type. -/
structure Vec3 (α : Type) where
  x : α
  y : α
  z : α
  deriving DecidableEq, Repr

namespace Vec3

variable {α : Type}

/-- Function `bx::add(a, b)`. -/
def add [Add α] (a b : Vec3 α) : Vec3 α := ⟨a.x + b.x, a.y + b.y, a.z + b.z⟩

/-- Function `bx::mul(a, s)`: vector times scalar. -/
def mul [Mul α] (a : Vec3 α) (s : α) : Vec3 α := ⟨a.x * s, a.y * s, a.z * s⟩

/-- Function `bx::cross(a, b)`. -/
def cross [Mul α] [Sub α] (a b : Vec3 α) : Vec3 α :=
  ⟨a.y * b.z - a.z * b.y, a.z * b.x - a.x * b.z, a.x * b.y - a.y * b.x⟩

/-- Function `bx::dot(a, b)`; `bx::length(a)` is the square root of `dot a a`. -/
def dot [Mul α] [Add α] (a b : Vec3 α) : α := a.x * b.x + a.y * b.y + a.z * b.z

end Vec3

/-- The transcendental part of `bx` used by the viewer (`bx::sin`, `bx::cos`,
`bx::kPi`), taken as a parameter so that the camera code stays executable. -/
structure BxMath (α : Type) where
  sin : α → α
  cos : α → α
  kPi : α

/-- Function `bx::toRad(deg)`, which is `deg * kPi / 180`. -/
def toRad {α : Type} [Field α] (m : BxMath α) (deg : α) : α := deg * m.kPi / 180

/-- Function `bx::clamp(a, lo, hi)`, which is `max(min(a, hi), lo)`. -/
def clamp {α : Type} [LinearOrder α] (a lo hi : α) : α := max (min a hi) lo

/-! ## Orientation -/

/-- The outputs of `axisFromEulerAngles`.  A caller that passes `nullptr` for
an output pointer simply does not receive that component. -/
structure Axes (α : Type) where
  forward : Vec3 α
  right : Vec3 α
  up : Vec3 α

/-- Function `axisFromEulerAngles(pitch, yaw, forward, right, up)`. -/
def axisFromEulerAngles {α : Type} [Field α] (m : BxMath α) (pitch yaw : α) : Axes α :=
  let ryaw := toRad m yaw
  let rpitch := toRad m pitch
  let f : Vec3 α :=
    ⟨m.sin ryaw * m.cos rpitch, m.sin rpitch, m.cos ryaw * m.cos rpitch⟩
  let r : Vec3 α :=
    ⟨m.sin (ryaw - m.kPi * (1 / 2)), 0, m.cos (ryaw - m.kPi * (1 / 2))⟩
  { forward := f
    right := r
    up := Vec3.mul (Vec3.cross f r) (-1) }

/-! ## `cleanAngle` -/

section CleanAngle

/-- First loop of `cleanAngle`: `while (degrees < 0.0f) degrees += 360.0f;`.
The measure counts the turns still to be added. -/
def cleanAngleUp {α : Type} [LinearOrderedField α] [FloorRing α] (degrees : α) : α :=
  if degrees < 0 then cleanAngleUp (degrees + 360) else degrees
termination_by (⌈-degrees / 360⌉).toNat
decreasing_by
  rename_i h
  have e : -(degrees + 360) / 360 = -degrees / 360 - 1 := by field_simp; ring
  have hpos : (0 : α) < -degrees / 360 := by
    apply div_pos <;> linarith
  have hc : 0 < ⌈-degrees / 360⌉ := Int.ceil_pos.mpr hpos
  rw [e, Int.ceil_sub_one]
  omega

/-- Second loop of `cleanAngle`: `while (degrees >= 360.0f) degrees -= 360.0f;`.
The measure counts the turns still to be removed. -/
def cleanAngleDown {α : Type} [LinearOrderedField α] [FloorRing α] (degrees : α) : α :=
  if 360 ≤ degrees then cleanAngleDown (degrees - 360) else degrees
termination_by (⌊degrees / 360⌋).toNat
decreasing_by
  rename_i h
  have e : (degrees - 360) / 360 = degrees / 360 - 1 := by field_simp
  have hone : (1 : α) ≤ degrees / 360 := by
    rw [le_div_iff₀ (by norm_num)]
    linarith
  have hc : 1 ≤ ⌊degrees / 360⌋ :=
    Int.le_floor.mpr (by simpa using hone : ((1 : ℤ) : α) ≤ degrees / 360)
  rw [e, Int.floor_sub_one]
  omega

/-- Function `cleanAngle(degrees)`: the two loops in sequence. -/
def cleanAngle {α : Type} [LinearOrderedField α] [FloorRing α] (degrees : α) : α :=
  cleanAngleDown (cleanAngleUp degrees)

end CleanAngle

/-! ## Cameras -/

/-- The `FirstPersonCamera` struct. -/
structure FirstPersonCamera (α : Type) where
  position : Vec3 α
  pitch : α
  yaw : α

/-- The `OrbitCamera` struct. -/
structure OrbitCamera (α : Type) where
  distance : α
  pitch : α
  yaw : α

namespace FirstPersonCamera

variable {α : Type}

/-- The constructor `FirstPersonCamera()`. -/
def new [Zero α] : FirstPersonCamera α := ⟨⟨0, 0, 0⟩, 0, 0⟩

/-- Function `FirstPersonCamera::move(deltaForward, deltaRight)`. -/
def move [Field α] (m : BxMath α) (c : FirstPersonCamera α) (deltaForward deltaRight : α) :
    FirstPersonCamera α :=
  let ax := axisFromEulerAngles m c.pitch c.yaw
  let velocity := Vec3.add (Vec3.mul ax.forward deltaForward) (Vec3.mul ax.right deltaRight)
  { c with position := Vec3.add c.position velocity }

/-- Function `FirstPersonCamera::rotate(deltaX, deltaY)`. -/
def rotate [LinearOrderedField α] [FloorRing α] (c : FirstPersonCamera α) (deltaX deltaY : α) :
    FirstPersonCamera α :=
  { c with
    yaw := cleanAngle (c.yaw + deltaX)
    pitch := clamp (c.pitch + deltaY) (-90) 90 }

end FirstPersonCamera

namespace OrbitCamera

variable {α : Type}

/-- The constructor `OrbitCamera()`. -/
def new [Zero α] [OfNat α 32] : OrbitCamera α := ⟨32, 0, 0⟩

/-- Function `OrbitCamera::rotate(deltaX, deltaY)`. -/
def rotate [LinearOrderedField α] [FloorRing α] (c : OrbitCamera α) (deltaX deltaY : α) :
    OrbitCamera α :=
  { c with
    yaw := cleanAngle (c.yaw - deltaX)
    pitch := clamp (c.pitch + deltaY) (-75) 75 }

/-- Function `OrbitCamera::zoom(delta)`. -/
def zoom [LinearOrderedField α] (c : OrbitCamera α) (delta : α) : OrbitCamera α :=
  { c with distance := clamp (c.distance + delta) (1 / 10) 500 }

end OrbitCamera

/-- The `CameraMode` enum. -/
inductive CameraMode where
  | FirstPerson
  | Orbit
  deriving DecidableEq, Repr

/-- The anonymous struct behind the global `s_camera`. -/
structure Camera (α : Type) where
  mode : CameraMode
  firstPerson : FirstPersonCamera α
  orbit : OrbitCamera α
  lastCursorPos : α × α
  fov : α
  sensitivity : α

/-- The initial value of `s_camera`; `lastCursorPos` has no initialiser in the
source and is zero as a static. -/
def Camera.init {α : Type} [Field α] : Camera α :=
  { mode := CameraMode.Orbit
    firstPerson := FirstPersonCamera.new
    orbit := OrbitCamera.new
    lastCursorPos := (0, 0)
    fov := 90
    sensitivity := 1 / 4 }

/-- Function `resetCamera()`. -/
def resetCamera {α : Type} [Field α] (c : Camera α) : Camera α :=
  { c with
    firstPerson := FirstPersonCamera.new
    orbit := OrbitCamera.new }

/-- One call on the cameras of `s_camera`: the member functions that write
camera fields. -/
inductive CameraOp (α : Type) where
  | fpMove (deltaForward deltaRight : α)
  | fpRotate (deltaX deltaY : α)
  | orbitRotate (deltaX deltaY : α)
  | orbitZoom (delta : α)

/-- Effect of one camera call on `s_camera`. -/
def Camera.apply {α : Type} [LinearOrderedField α] [FloorRing α] (m : BxMath α)
    (c : Camera α) : CameraOp α → Camera α
  | .fpMove df dr => { c with firstPerson := c.firstPerson.move m df dr }
  | .fpRotate dx dy => { c with firstPerson := c.firstPerson.rotate dx dy }
  | .orbitRotate dx dy => { c with orbit := c.orbit.rotate dx dy }
  | .orbitZoom d => { c with orbit := c.orbit.zoom d }

/-- Effect of a sequence of camera calls, first call first. -/
def Camera.run {α : Type} [LinearOrderedField α] [FloorRing α] (m : BxMath α)
    (c : Camera α) (ops : List (CameraOp α)) : Camera α :=
  ops.foldl (Camera.apply m) c

/-! ## GLFW constants (from `GLFW/glfw3.h`) -/

/-- Function `GLFW_RELEASE`. -/
def GLFW_RELEASE : Int := 0
/-- Function `GLFW_PRESS`. -/
def GLFW_PRESS : Int := 1
/-- Function `GLFW_REPEAT`. -/
def GLFW_REPEAT : Int := 2
/-- Function `GLFW_KEY_A`. -/
def GLFW_KEY_A : Int := 65
/-- Function `GLFW_KEY_D`. -/
def GLFW_KEY_D : Int := 68
/-- Function `GLFW_KEY_E`. -/
def GLFW_KEY_E : Int := 69
/-- Function `GLFW_KEY_Q`. -/
def GLFW_KEY_Q : Int := 81
/-- Function `GLFW_KEY_S`. -/
def GLFW_KEY_S : Int := 83
/-- Function `GLFW_KEY_W`. -/
def GLFW_KEY_W : Int := 87
/-- Function `GLFW_KEY_F1`. -/
def GLFW_KEY_F1 : Int := 290
/-- Function `GLFW_KEY_F2`. -/
def GLFW_KEY_F2 : Int := 291
/-- Function `GLFW_KEY_LEFT_SHIFT`. -/
def GLFW_KEY_LEFT_SHIFT : Int := 340
/-- Function `GLFW_KEY_LEFT_CONTROL`. -/
def GLFW_KEY_LEFT_CONTROL : Int := 341
/-- Function `GLFW_KEY_LEFT_ALT`. -/
def GLFW_KEY_LEFT_ALT : Int := 342
/-- Function `GLFW_KEY_LEFT_SUPER`. -/
def GLFW_KEY_LEFT_SUPER : Int := 343
/-- Function `GLFW_KEY_RIGHT_SHIFT`. -/
def GLFW_KEY_RIGHT_SHIFT : Int := 344
/-- Function `GLFW_KEY_RIGHT_CONTROL`. -/
def GLFW_KEY_RIGHT_CONTROL : Int := 345
/-- Function `GLFW_KEY_RIGHT_ALT`. -/
def GLFW_KEY_RIGHT_ALT : Int := 346
/-- Function `GLFW_KEY_RIGHT_SUPER`. -/
def GLFW_KEY_RIGHT_SUPER : Int := 347
/-- Function `GLFW_KEY_LAST`. -/
def GLFW_KEY_LAST : Int := 348

/-- The value of `glfwGetInputMode(g_window, GLFW_CURSOR)`. -/
inductive CursorMode where
  | normal
  | disabled
  deriving DecidableEq, Repr

/-! ## Global state -/

/-- The fields of `ImGuiIO` that the viewer callbacks read or write. -/
structure ImGuiIO (α : Type) where
  KeysDown : Int → Bool
  KeyCtrl : Bool
  KeyShift : Bool
  KeyAlt : Bool
  KeySuper : Bool
  MouseDown : Int → Bool
  WantCaptureMouse : Bool
  MouseWheel : α

/-- The globals the input handlers and the camera update work on:
`g_options.gui`, `s_showBgfxStats`, `s_keyDown`, `s_camera`, the cursor mode of
`g_window` and the ImGui input record. -/
structure State (α : Type) where
  gui : Bool
  s_showBgfxStats : Bool
  s_keyDown : Int → Bool
  s_camera : Camera α
  cursor : CursorMode
  io : ImGuiIO α

/-- The globals at program start.  The initial `g_options.gui` is set in
`viewer.h` and is a parameter here; the ImGui record starts cleared. -/
def State.init {α : Type} [Field α] (gui : Bool) : State α :=
  { gui := gui
    s_showBgfxStats := false
    s_keyDown := fun _ => false
    s_camera := Camera.init
    cursor := CursorMode.normal
    io :=
      { KeysDown := fun _ => false
        KeyCtrl := false
        KeyShift := false
        KeyAlt := false
        KeySuper := false
        MouseDown := fun _ => false
        WantCaptureMouse := false
        MouseWheel := 0 } }

/-- The initial state put into first-person mode with the cursor captured and
W as the only key held. -/
def State.holdingW {α : Type} [Field α] : State α :=
  { (State.init false : State α) with
    s_keyDown := fun k => decide (k = GLFW_KEY_W)
    s_camera := { (Camera.init : Camera α) with mode := CameraMode.FirstPerson }
    cursor := CursorMode.disabled }

/-! ## Input callbacks -/

/-- Callback `glfw_cursorPosCallback(window, xpos, ypos)`. -/
def glfw_cursorPosCallback {α : Type} [LinearOrderedField α] [FloorRing α]
    (s : State α) (xpos ypos : α) : State α :=
  let deltaX := xpos - s.s_camera.lastCursorPos.1
  let deltaY := ypos - s.s_camera.lastCursorPos.2
  let cam := { s.s_camera with lastCursorPos := (xpos, ypos) }
  if s.cursor = CursorMode.disabled then
    if cam.mode = CameraMode.FirstPerson then
      { s with s_camera :=
          { cam with firstPerson :=
              cam.firstPerson.rotate (-deltaX * cam.sensitivity) (-deltaY * cam.sensitivity) } }
    else if cam.mode = CameraMode.Orbit then
      { s with s_camera :=
          { cam with orbit :=
              cam.orbit.rotate (deltaX * cam.sensitivity) (-deltaY * cam.sensitivity) } }
    else { s with s_camera := cam }
  else { s with s_camera := cam }

/-- Callback `glfw_keyCallback(window, key, scancode, action, mods)`.  Each
`let` is one statement of the source, in order, on the global it assigns. -/
def glfw_keyCallback {α : Type} (s : State α) (key action : Int) : State α :=
  if action = GLFW_REPEAT then s
  else
    let keyDown : Int → Bool :=
      if 0 ≤ key ∧ key ≤ GLFW_KEY_LAST then
        Function.update s.s_keyDown key (decide (action = GLFW_PRESS))
      else s.s_keyDown
    let showBgfxStats : Bool :=
      if key = GLFW_KEY_F1 ∧ action = GLFW_RELEASE then !s.s_showBgfxStats
      else s.s_showBgfxStats
    let gui : Bool :=
      if key = GLFW_KEY_F2 ∧ action = GLFW_RELEASE then !s.gui else s.gui
    let io : ImGuiIO α :=
      if gui then
        let keys : Int → Bool :=
          if 0 ≤ key ∧ key < 512 then
            Function.update s.io.KeysDown key (decide (action = GLFW_PRESS))
          else s.io.KeysDown
        { s.io with
          KeysDown := keys
          KeyCtrl := keys GLFW_KEY_LEFT_CONTROL || keys GLFW_KEY_RIGHT_CONTROL
          KeyShift := keys GLFW_KEY_LEFT_SHIFT || keys GLFW_KEY_RIGHT_SHIFT
          KeyAlt := keys GLFW_KEY_LEFT_ALT || keys GLFW_KEY_RIGHT_ALT
          KeySuper := keys GLFW_KEY_LEFT_SUPER || keys GLFW_KEY_RIGHT_SUPER }
      else s.io
    { s with
      gui := gui
      s_showBgfxStats := showBgfxStats
      s_keyDown := keyDown
      io := io }

/-- Callback `glfw_mouseButtonCallback(window, button, action, mods)`.  Each
`let` is one statement of the source, in order, on the global it assigns. -/
def glfw_mouseButtonCallback {α : Type} (s : State α) (button action : Int) : State α :=
  if button ≠ 0 then s
  else
    let cursor1 : CursorMode :=
      if s.cursor = CursorMode.disabled ∧ action = GLFW_RELEASE then CursorMode.normal
      else s.cursor
    if s.gui then
      let mouseDown : Int → Bool :=
        Function.update s.io.MouseDown button (decide (action = GLFW_PRESS))
      let cursor2 : CursorMode :=
        if action = GLFW_PRESS ∧ ¬ s.io.WantCaptureMouse then CursorMode.disabled
        else cursor1
      { s with
        cursor := cursor2
        io := { s.io with MouseDown := mouseDown } }
    else
      let cursor2 : CursorMode :=
        if action = GLFW_PRESS then CursorMode.disabled else cursor1
      { s with cursor := cursor2 }

/-- Callback `glfw_scrollCallback(window, xoffset, yoffset)`. -/
def glfw_scrollCallback {α : Type} [LinearOrderedField α] (s : State α) (yoffset : α) :
    State α :=
  if s.gui ∧ s.io.WantCaptureMouse then
    { s with io := { s.io with MouseWheel := s.io.MouseWheel + yoffset } }
  else if s.s_camera.mode = CameraMode.Orbit then
    { s with s_camera := { s.s_camera with orbit := s.s_camera.orbit.zoom (-yoffset) } }
  else s

/-! ## Per-frame camera update (`main`, "Update camera.") -/

/-- Local `speed`. -/
def frameSpeed {α : Type} [Field α] (keyDown : Int → Bool) (deltaTime : α) : α :=
  (if keyDown GLFW_KEY_LEFT_SHIFT then 20 else 5) * deltaTime

/-- Local `deltaForward` at the call of `move`. -/
def frameDeltaForward {α : Type} [Field α] (keyDown : Int → Bool) (deltaTime : α) : α :=
  let speed := frameSpeed keyDown deltaTime
  let d0 : α := 0
  let d1 := if keyDown GLFW_KEY_W then d0 + speed else d0
  if keyDown GLFW_KEY_S then d1 - speed else d1

/-- Local `deltaRight` at the call of `move`. -/
def frameDeltaRight {α : Type} [Field α] (keyDown : Int → Bool) (deltaTime : α) : α :=
  let speed := frameSpeed keyDown deltaTime
  let d0 : α := 0
  let d1 := if keyDown GLFW_KEY_A then d0 - speed else d0
  if keyDown GLFW_KEY_D then d1 + speed else d1

/-- The two statements on `position.y` after the call of `move`. -/
def frameVertical {α : Type} [Field α] (keyDown : Int → Bool) (deltaTime : α) (y : α) : α :=
  let speed := frameSpeed keyDown deltaTime
  let y1 := if keyDown GLFW_KEY_Q then y - speed else y
  if keyDown GLFW_KEY_E then y1 + speed else y1

/-- The camera update block of the render loop for a frame of length `deltaTime`. -/
def updateCamera {α : Type} [Field α] (m : BxMath α) (s : State α) (deltaTime : α) :
    State α :=
  if s.s_camera.mode = CameraMode.FirstPerson ∧ s.cursor = CursorMode.disabled then
    let fp := s.s_camera.firstPerson.move m (frameDeltaForward s.s_keyDown deltaTime)
      (frameDeltaRight s.s_keyDown deltaTime)
    let fp2 : FirstPersonCamera α :=
      { fp with position :=
          { fp.position with y := frameVertical s.s_keyDown deltaTime fp.position.y } }
    { s with s_camera := { s.s_camera with firstPerson := fp2 } }
  else s

/-! ## Error message box -/

/-- The terminating character of a C string. -/
def NUL : Char := Char.ofNat 0

/-- Function `sizeof(s_errorMessage.text)`. -/
def errorTextSize : Nat := 1024

/-- The `text` array of `s_errorMessage`; the mutex around it is not modelled. -/
structure ErrorMessage where
  text : List Char

/-- The initial `s_errorMessage`: `char text[1024] = { 0 }`. -/
def ErrorMessage.init : ErrorMessage := ⟨List.replicate errorTextSize NUL⟩

/-- A variadic argument of `setErrorMessage`; string arguments are the only
kind modelled. -/
inductive FormatArg where
  | str (s : List Char)

/-- The text a libc `printf`-family call produces for a format and its
arguments, for formats made of ordinary characters, `%%` and `%s`.  Any other
conversion, or a `%s` without a string argument, is outside the model
(`none`). -/
def formatExpand : List Char → List FormatArg → Option (List Char)
  | [], _ => some []
  | c :: rest, args =>
    if c = '%' then
      match rest, args with
      | d :: rest2, args =>
        if d = '%' then (formatExpand rest2 args).map (fun t => '%' :: t)
        else if d = 's' then
          match args with
          | FormatArg.str s :: args2 => (formatExpand rest2 args2).map (fun t => s ++ t)
          | [] => none
        else none
      | [], _ => none
    else (formatExpand rest args).map (fun t => c :: t)

/-- The libc `vsnprintf(buf, size, ...)` store, given the expanded text `out`:
at most `size - 1` characters of `out`, then a terminating NUL; the rest of the
buffer keeps its content. -/
def vsnprintf (buf : List Char) (size : Nat) (out : List Char) : List Char :=
  if size = 0 then buf
  else
    let written := out.take (size - 1)
    written ++ NUL :: buf.drop (written.length + 1)

/-- Function `setErrorMessage(format, ...)`; `format = none` is the `nullptr` call.
The result is `none` only when the format is outside `formatExpand`. -/
def setErrorMessage (e : ErrorMessage) (format : Option (List Char)) (args : List FormatArg) :
    Option ErrorMessage :=
  match format with
  | some f =>
    match formatExpand f args with
    | some out => some { e with text := vsnprintf e.text errorTextSize out }
    | none => none
  | none => some { e with text := e.text.set 0 NUL }

/-- The C string held in the buffer: the characters before the first NUL. -/
def storedMessage (e : ErrorMessage) : List Char :=
  e.text.takeWhile (fun c => c != NUL)

/-- Reading the buffer as the render loop does, through
`bx::strCopy(errorMessage, sizeof(errorMessage), s_errorMessage.text)` into a
local array of the same size: the stored C string, cut to at most
`sizeof(errorMessage) - 1` characters. -/
def readErrorMessage (e : ErrorMessage) : List Char :=
  (storedMessage e).take (errorTextSize - 1)

/-! ## Common shaders -/

/-- The `ShaderId` enum; its members are in the order of the `s_shaders` table
that is kept in sync with it. -/
inductive ShaderId where
  | fs_chart
  | fs_color
  | fs_gui
  | fs_material
  | vs_chart
  | vs_chartTexcoordSpace
  | vs_gui
  | vs_model
  | vs_position
  deriving DecidableEq, Repr

/-- The cases of `bgfx::getRendererType()` that `loadShader` tells apart. -/
inductive RendererType where
  | OpenGL
  | Direct3D11
  | Other
  deriving DecidableEq, Repr

/-- A `bgfx::ShaderHandle` or `bgfx::ProgramHandle`; the two kinds have
separate index spaces. -/
inductive Handle where
  | shader (idx : Nat)
  | program (idx : Nat)
  deriving DecidableEq, Repr

/-- The bgfx resource calls made by the viewer. -/
inductive BgfxCall where
  | createShader (id : ShaderId) (h : Handle)
  | createProgram (vs fs h : Handle)
  | destroy (h : Handle)
  deriving DecidableEq, Repr

/-- The part of bgfx the shader code depends on.  `windows` is the build flag
`BX_PLATFORM_WINDOWS`, `shaderOk id` says whether `bgfx::createShader` returns a
valid handle for that shader, `nextShader` and `nextProgram` are the next free
indices, and `calls` records the resource calls made so far, oldest first. -/
structure Bgfx where
  rendererType : RendererType
  windows : Bool
  shaderOk : ShaderId → Bool
  nextShader : Nat
  nextProgram : Nat
  calls : List BgfxCall

/-- Function `loadShader(id)`; `none` is `exit(EXIT_FAILURE)`. -/
def loadShader (g : Bgfx) (id : ShaderId) : Option (Handle × Bgfx) :=
  if g.rendererType = RendererType.OpenGL ∨
      (g.windows = true ∧ g.rendererType = RendererType.Direct3D11) then
    if g.shaderOk id then
      let shader := Handle.shader g.nextShader
      some (shader,
        { g with
          nextShader := g.nextShader + 1
          calls := g.calls ++ [BgfxCall.createShader id shader] })
    else none
  else none

/-- The anonymous struct behind the global `s_commonShaders`. -/
structure CommonShaders where
  vs_position : Handle
  fs_color : Handle
  colorProgram : Handle
  deriving DecidableEq, Repr

/-- Function `commonShadersInit()`; `none` is `exit(EXIT_FAILURE)` inside `loadShader`. -/
def commonShadersInit (g : Bgfx) : Option (CommonShaders × Bgfx) :=
  match loadShader g ShaderId.vs_position with
  | none => none
  | some (vs, g1) =>
    match loadShader g1 ShaderId.fs_color with
    | none => none
    | some (fs, g2) =>
      let prog := Handle.program g2.nextProgram
      some (⟨vs, fs, prog⟩,
        { g2 with
          nextProgram := g2.nextProgram + 1
          calls := g2.calls ++ [BgfxCall.createProgram vs fs prog] })

/-- Function `commonShadersShutdown()`. -/
def commonShadersShutdown (cs : CommonShaders) (g : Bgfx) : Bgfx :=
  { g with
    calls := g.calls ++
      [BgfxCall.destroy cs.vs_position, BgfxCall.destroy cs.fs_color,
       BgfxCall.destroy cs.colorProgram] }

/-- The calls recorded between two bgfx states. -/
def callsSince (before after : Bgfx) : List BgfxCall :=
  after.calls.drop before.calls.length

/-- The handles created by a run of calls, in order. -/
def createdHandles (calls : List BgfxCall) : List Handle :=
  calls.filterMap fun
    | BgfxCall.createShader _ h => some h
    | BgfxCall.createProgram _ _ h => some h
    | BgfxCall.destroy _ => none

/-- The handles destroyed by a run of calls, in order. -/
def destroyedHandles (calls : List BgfxCall) : List Handle :=
  calls.filterMap fun
    | BgfxCall.destroy h => some h
    | _ => none

/-- A bgfx state right after `bgfx::init` on the OpenGL renderer of a
non-Windows build: every shader compiles, nothing created yet. -/
def Bgfx.fresh : Bgfx :=
  { rendererType := RendererType.OpenGL
    windows := false
    shaderOk := fun _ => true
    nextShader := 0
    nextProgram := 0
    calls := [] }

/-! ## Specification vocabulary -/

/-- The first-person camera after each of a sequence of `rotate` calls, first
call first; a call is the pair `(deltaX, deltaY)`. -/
def FirstPersonCamera.rotateTrace {α : Type} [LinearOrderedField α] [FloorRing α]
    (c : FirstPersonCamera α) : List (α × α) → List (FirstPersonCamera α)
  | [] => []
  | d :: ds => c.rotate d.1 d.2 :: FirstPersonCamera.rotateTrace (c.rotate d.1 d.2) ds

/-- The orbit camera after each of a sequence of `rotate` calls, first call
first; a call is the pair `(deltaX, deltaY)`. -/
def OrbitCamera.rotateTrace {α : Type} [LinearOrderedField α] [FloorRing α]
    (c : OrbitCamera α) : List (α × α) → List (OrbitCamera α)
  | [] => []
  | d :: ds => c.rotate d.1 d.2 :: OrbitCamera.rotateTrace (c.rotate d.1 d.2) ds

/-- The documented ranges of the clamped camera fields: first-person pitch in
[-90, 90], orbit pitch in [-75, 75], orbit distance in [0.1, 500]. -/
def Camera.inRange {α : Type} [LinearOrderedField α] (c : Camera α) : Prop :=
  (-90 ≤ c.firstPerson.pitch ∧ c.firstPerson.pitch ≤ 90) ∧
  (-75 ≤ c.orbit.pitch ∧ c.orbit.pitch ≤ 75) ∧
  (1 / 10 ≤ c.orbit.distance ∧ c.orbit.distance ≤ 500)

instance {α : Type} [LinearOrderedField α] (c : Camera α) : Decidable c.inRange := by
  unfold Camera.inRange
  infer_instance

/-! ## Auxiliary facts -/

theorem clamp_ge {α : Type} [LinearOrder α] (a lo hi : α) : lo ≤ clamp a lo hi :=
  le_max_right _ _

theorem clamp_le {α : Type} [LinearOrder α] (a lo hi : α) (h : lo ≤ hi) :
    clamp a lo hi ≤ hi :=
  max_le (min_le_right _ _) h

theorem cleanAngleUp_nonneg {α : Type} [LinearOrderedField α] [FloorRing α] (d : α) :
    0 ≤ cleanAngleUp d := by
  induction d using cleanAngleUp.induct with
  | case1 d h ih => rw [cleanAngleUp, if_pos h]; exact ih
  | case2 d h => rw [cleanAngleUp, if_neg h]; exact not_lt.mp h

theorem cleanAngleDown_range {α : Type} [LinearOrderedField α] [FloorRing α] (d : α)
    (h0 : 0 ≤ d) : 0 ≤ cleanAngleDown d ∧ cleanAngleDown d < 360 := by
  induction d using cleanAngleDown.induct with
  | case1 d h ih => rw [cleanAngleDown, if_pos h]; exact ih (by linarith)
  | case2 d h => rw [cleanAngleDown, if_neg h]; exact ⟨h0, not_le.mp h⟩

theorem cleanAngle_range {α : Type} [LinearOrderedField α] [FloorRing α] (d : α) :
    0 ≤ cleanAngle d ∧ cleanAngle d < 360 :=
  cleanAngleDown_range _ (cleanAngleUp_nonneg d)

theorem Camera.inRange_apply {α : Type} [LinearOrderedField α] [FloorRing α] (m : BxMath α)
    (c : Camera α) (h : c.inRange) (op : CameraOp α) : (c.apply m op).inRange := by
  obtain ⟨h1, h2, h3⟩ := h
  cases op with
  | fpMove df dr => exact ⟨h1, h2, h3⟩
  | fpRotate dx dy =>
    exact ⟨⟨clamp_ge _ _ _, clamp_le _ _ _ (by norm_num)⟩, h2, h3⟩
  | orbitRotate dx dy =>
    exact ⟨h1, ⟨clamp_ge _ _ _, clamp_le _ _ _ (by norm_num)⟩, h3⟩
  | orbitZoom d =>
    exact ⟨h1, h2, ⟨clamp_ge _ _ _, clamp_le _ _ _ (by norm_num)⟩⟩

theorem Camera.inRange_run {α : Type} [LinearOrderedField α] [FloorRing α] (m : BxMath α)
    (ops : List (CameraOp α)) : ∀ c : Camera α, c.inRange → (c.run m ops).inRange := by
  induction ops with
  | nil => intro c h; exact h
  | cons op ops ih =>
    intro c h
    exact ih _ (Camera.inRange_apply m c h op)

theorem Camera.inRange_init {α : Type} [LinearOrderedField α] :
    (Camera.init : Camera α).inRange := by
  simp only [Camera.inRange, Camera.init, FirstPersonCamera.new, OrbitCamera.new]
  norm_num

/-! ## Camera claims -/

/-- C1: over exact arithmetic `cleanAngle` is a total function, and for every
starting camera and every finite sequence of `rotate` calls the yaw after each
call lies in [0, 360), for `FirstPersonCamera` and for `OrbitCamera`. -/
theorem yaw_normalized_after_each_rotate {α : Type} [LinearOrderedField α] [FloorRing α] :
    (∀ (c : FirstPersonCamera α) (calls : List (α × α)),
        ∀ c1 ∈ c.rotateTrace calls, 0 ≤ c1.yaw ∧ c1.yaw < 360) ∧
    (∀ (c : OrbitCamera α) (calls : List (α × α)),
        ∀ c1 ∈ c.rotateTrace calls, 0 ≤ c1.yaw ∧ c1.yaw < 360) := by
  constructor
  · intro c calls
    induction calls generalizing c with
    | nil => intro c1 h; simp [FirstPersonCamera.rotateTrace] at h
    | cons d ds ih =>
      intro c1 h
      simp only [FirstPersonCamera.rotateTrace, List.mem_cons] at h
      rcases h with h | h
      · subst h
        exact cleanAngle_range _
      · exact ih _ c1 h
  · intro c calls
    induction calls generalizing c with
    | nil => intro c1 h; simp [OrbitCamera.rotateTrace] at h
    | cons d ds ih =>
      intro c1 h
      simp only [OrbitCamera.rotateTrace, List.mem_cons] at h
      rcases h with h | h
      · subst h
        exact cleanAngle_range _
      · exact ih _ c1 h

/-- C2: for every prior camera state and every delta, the pitch after
`FirstPersonCamera::rotate` is in [-90, 90], the pitch after
`OrbitCamera::rotate` is in [-75, 75] and the distance after
`OrbitCamera::zoom` is in [0.1, 500]; so the three ranges hold after any
sequence of camera calls on the initial `s_camera`, and on any `s_camera`
whose fields are in range. -/
theorem clamped_fields_stay_in_range {α : Type} [LinearOrderedField α] [FloorRing α]
    (m : BxMath α) :
    (∀ (c : FirstPersonCamera α) (dx dy : α),
        -90 ≤ (c.rotate dx dy).pitch ∧ (c.rotate dx dy).pitch ≤ 90) ∧
    (∀ (c : OrbitCamera α) (dx dy : α),
        -75 ≤ (c.rotate dx dy).pitch ∧ (c.rotate dx dy).pitch ≤ 75) ∧
    (∀ (c : OrbitCamera α) (d : α),
        1 / 10 ≤ (c.zoom d).distance ∧ (c.zoom d).distance ≤ 500) ∧
    (∀ ops : List (CameraOp α), ((Camera.init : Camera α).run m ops).inRange) ∧
    (∀ (c : Camera α) (ops : List (CameraOp α)), c.inRange → (c.run m ops).inRange) :=
  ⟨fun _ _ _ => ⟨clamp_ge _ _ _, clamp_le _ _ _ (by norm_num)⟩,
   fun _ _ _ => ⟨clamp_ge _ _ _, clamp_le _ _ _ (by norm_num)⟩,
   fun _ _ => ⟨clamp_ge _ _ _, clamp_le _ _ _ (by norm_num)⟩,
   fun ops => Camera.inRange_run m ops _ Camera.inRange_init,
   fun c ops h => Camera.inRange_run m ops c h⟩

/-- C3: whatever the prior `s_camera` and whatever camera calls came before,
after `resetCamera()` the first-person camera has position (0,0,0), pitch 0
and yaw 0 and the orbit camera has distance 32, pitch 0 and yaw 0: both equal
their default-constructed values. -/
theorem resetCamera_restores_defaults {α : Type} [LinearOrderedField α] [FloorRing α]
    (m : BxMath α) (c : Camera α) (ops : List (CameraOp α)) :
    (resetCamera (c.run m ops)).firstPerson.position = ⟨0, 0, 0⟩ ∧
    (resetCamera (c.run m ops)).firstPerson.pitch = 0 ∧
    (resetCamera (c.run m ops)).firstPerson.yaw = 0 ∧
    (resetCamera (c.run m ops)).orbit.distance = 32 ∧
    (resetCamera (c.run m ops)).orbit.pitch = 0 ∧
    (resetCamera (c.run m ops)).orbit.yaw = 0 ∧
    (resetCamera (c.run m ops)).firstPerson = FirstPersonCamera.new ∧
    (resetCamera (c.run m ops)).orbit = OrbitCamera.new :=
  ⟨rfl, rfl, rfl, rfl, rfl, rfl, rfl, rfl⟩

/-! ## Error message claims -/

theorem takeWhile_append_NUL (w rest : List Char) (h : NUL ∉ w) :
    (w ++ NUL :: rest).takeWhile (fun c => c != NUL) = w := by
  induction w with
  | nil => simp [List.takeWhile]
  | cons a w ih =>
    have ha : a ≠ NUL := fun e => h (by simp [e])
    have hw : NUL ∉ w := fun e => h (List.mem_cons_of_mem _ e)
    have hb : (a != NUL) = true := by simpa using ha
    simp only [List.cons_append, List.takeWhile_cons, hb, if_true, ih hw]

theorem takeWhile_append_NUL_length (w rest : List Char) :
    ((w ++ NUL :: rest).takeWhile (fun c => c != NUL)).length ≤ w.length := by
  induction w with
  | nil => simp [List.takeWhile]
  | cons a w ih =>
    by_cases ha : a = NUL
    · simp [List.takeWhile_cons, ha]
    · have hb : (a != NUL) = true := by simpa using ha
      simp only [List.cons_append, List.takeWhile_cons, hb, if_true, List.length_cons]
      omega

theorem vsnprintf_length (buf out : List Char) (h : buf.length = errorTextSize) :
    (vsnprintf buf errorTextSize out).length = errorTextSize := by
  simp only [vsnprintf, errorTextSize] at *
  simp only [List.length_append, List.length_cons, List.length_drop, List.length_take]
  simp
  omega

theorem formatExpand_percent_s (s : List Char) :
    formatExpand ['%', 's'] [FormatArg.str s] = some s := by
  simp [formatExpand]

/-- C4: for every prior content of the 1024-character error buffer,
`setErrorMessage(nullptr)` leaves the empty string; `setErrorMessage("%s", s)`
followed by a read returns the first 1023 characters of `s`, which is `s`
itself when `s` has at most 1023 characters; and after any call the stored
message has at most 1023 visible characters in a buffer of unchanged size. -/
theorem setErrorMessage_read (e : ErrorMessage) (s : List Char)
    (he : e.text.length = errorTextSize) (hs : NUL ∉ s) :
    (setErrorMessage e none []).map readErrorMessage = some [] ∧
    (setErrorMessage e (some ['%', 's']) [FormatArg.str s]).map readErrorMessage
      = some (s.take 1023) ∧
    (s.length ≤ 1023 →
      (setErrorMessage e (some ['%', 's']) [FormatArg.str s]).map readErrorMessage = some s) ∧
    (∀ (format : Option (List Char)) (args : List FormatArg) (e1 : ErrorMessage),
      setErrorMessage e format args = some e1 →
        (storedMessage e1).length ≤ 1023 ∧ (readErrorMessage e1).length ≤ 1023 ∧
        e1.text.length = errorTextSize) := by
  have hread : (setErrorMessage e (some ['%', 's']) [FormatArg.str s]).map readErrorMessage
      = some (s.take 1023) := by
    have hw : NUL ∉ s.take 1023 := fun h => hs (List.mem_of_mem_take h)
    simp only [setErrorMessage, formatExpand_percent_s, Option.map_some', readErrorMessage,
      storedMessage, vsnprintf, errorTextSize]
    simp [takeWhile_append_NUL _ _ hw, List.take_take]
  have hcut : ∀ e1 : ErrorMessage, (readErrorMessage e1).length ≤ 1023 := fun e1 =>
    List.length_take_le _ _
  refine ⟨?_, hread, ?_, ?_⟩
  · cases ht : e.text with
    | nil => simp [ht, errorTextSize] at he
    | cons a t =>
      simp [setErrorMessage, readErrorMessage, storedMessage, ht, List.takeWhile_cons]
  · intro hlen
    rw [hread, List.take_of_length_le hlen]
  · intro format args e1 h
    refine ⟨?_, hcut e1, ?_⟩
    · cases format with
      | none =>
        simp only [setErrorMessage, Option.some.injEq] at h
        subst h
        cases ht : e.text with
        | nil => simp [ht, errorTextSize] at he
        | cons a t => simp [storedMessage, List.takeWhile_cons]
      | some f =>
        simp only [setErrorMessage] at h
        cases hf : formatExpand f args with
        | none => simp [hf] at h
        | some out =>
          simp only [hf, Option.some.injEq] at h
          subst h
          simp only [storedMessage, vsnprintf, errorTextSize]
          simp only [Nat.succ_ne_zero, if_false]
          refine le_trans (takeWhile_append_NUL_length _ _) ?_
          simp
    · cases format with
      | none =>
        simp only [setErrorMessage, Option.some.injEq] at h
        subst h
        simpa using he
      | some f =>
        simp only [setErrorMessage] at h
        cases hf : formatExpand f args with
        | none => simp [hf] at h
        | some out =>
          simp only [hf, Option.some.injEq] at h
          subst h
          exact vsnprintf_length _ _ he

/-- C4 at `s = "x"` on the initial buffer: the read returns exactly "x". -/
theorem setErrorMessage_read_witness :
    ErrorMessage.init.text.length = errorTextSize ∧ NUL ∉ ['x'] ∧
    (setErrorMessage ErrorMessage.init (some ['%', 's']) [FormatArg.str ['x']]).map
      readErrorMessage = some ['x'] :=
  ⟨by simp [ErrorMessage.init], by decide,
   (setErrorMessage_read ErrorMessage.init ['x'] (by simp [ErrorMessage.init])
      (by decide)).2.2.1 (by decide)⟩

/-! ## Orientation claim -/

/-- C5: over real trigonometry, for every pitch and yaw in degrees the
forward, right and up vectors of `axisFromEulerAngles` have length 1 and up is
`-(forward × right)`; for pitch 0 and yaw 0 forward is (0,0,1) and up is
(0,1,0). -/
theorem axisFromEulerAngles_unit (pitch yaw : ℝ) :
    Real.sqrt (Vec3.dot
      (axisFromEulerAngles (BxMath.mk Real.sin Real.cos Real.pi) pitch yaw).forward
      (axisFromEulerAngles (BxMath.mk Real.sin Real.cos Real.pi) pitch yaw).forward) = 1 ∧
    Real.sqrt (Vec3.dot
      (axisFromEulerAngles (BxMath.mk Real.sin Real.cos Real.pi) pitch yaw).right
      (axisFromEulerAngles (BxMath.mk Real.sin Real.cos Real.pi) pitch yaw).right) = 1 ∧
    Real.sqrt (Vec3.dot
      (axisFromEulerAngles (BxMath.mk Real.sin Real.cos Real.pi) pitch yaw).up
      (axisFromEulerAngles (BxMath.mk Real.sin Real.cos Real.pi) pitch yaw).up) = 1 ∧
    (axisFromEulerAngles (BxMath.mk Real.sin Real.cos Real.pi) pitch yaw).up =
      Vec3.mul (Vec3.cross
        (axisFromEulerAngles (BxMath.mk Real.sin Real.cos Real.pi) pitch yaw).forward
        (axisFromEulerAngles (BxMath.mk Real.sin Real.cos Real.pi) pitch yaw).right) (-1) ∧
    (axisFromEulerAngles (BxMath.mk Real.sin Real.cos Real.pi) 0 0).forward = ⟨0, 0, 1⟩ ∧
    (axisFromEulerAngles (BxMath.mk Real.sin Real.cos Real.pi) 0 0).up = ⟨0, 1, 0⟩ := by
  have hhalf : Real.pi * (1 / 2) = Real.pi / 2 := by ring
  have hy := Real.sin_sq_add_cos_sq (yaw * Real.pi / 180)
  have hp := Real.sin_sq_add_cos_sq (pitch * Real.pi / 180)
  refine ⟨?_, ?_, ?_, rfl, ?_, ?_⟩
  · have h : Vec3.dot
        (axisFromEulerAngles (BxMath.mk Real.sin Real.cos Real.pi) pitch yaw).forward
        (axisFromEulerAngles (BxMath.mk Real.sin Real.cos Real.pi) pitch yaw).forward = 1 := by
      simp only [axisFromEulerAngles, toRad, Vec3.dot]
      linear_combination (Real.cos (pitch * Real.pi / 180)) ^ 2 * hy + hp
    rw [h, Real.sqrt_one]
  · have h : Vec3.dot
        (axisFromEulerAngles (BxMath.mk Real.sin Real.cos Real.pi) pitch yaw).right
        (axisFromEulerAngles (BxMath.mk Real.sin Real.cos Real.pi) pitch yaw).right = 1 := by
      simp only [axisFromEulerAngles, toRad, Vec3.dot, hhalf, Real.sin_sub_pi_div_two,
        Real.cos_sub_pi_div_two]
      linear_combination hy
    rw [h, Real.sqrt_one]
  · have h : Vec3.dot
        (axisFromEulerAngles (BxMath.mk Real.sin Real.cos Real.pi) pitch yaw).up
        (axisFromEulerAngles (BxMath.mk Real.sin Real.cos Real.pi) pitch yaw).up = 1 := by
      simp only [axisFromEulerAngles, toRad, Vec3.dot, Vec3.mul, Vec3.cross, hhalf,
        Real.sin_sub_pi_div_two, Real.cos_sub_pi_div_two]
      linear_combination
        ((Real.sin (pitch * Real.pi / 180)) ^ 2 +
          (Real.cos (pitch * Real.pi / 180)) ^ 2 *
            ((Real.sin (yaw * Real.pi / 180)) ^ 2 + (Real.cos (yaw * Real.pi / 180)) ^ 2 + 1))
          * hy + hp
    rw [h, Real.sqrt_one]
  · simp [axisFromEulerAngles, toRad]
  · simp only [axisFromEulerAngles, toRad, Vec3.mul, Vec3.cross, hhalf,
      Real.sin_sub_pi_div_two, Real.cos_sub_pi_div_two]
    simp

/-! ## Scroll and movement claims -/

/-- C6: when the GUI is not capturing the mouse (hidden, or not wanting the
mouse), a scroll with vertical offset `y` in orbit mode sets the orbit distance
to `clamp(distance - y, 0.1, 500)`; a scroll-up of 1 from a distance `d` in
[0.1, 500] gives `max(d - 1, 0.1)`; in first-person mode the scroll changes
neither camera (nor anything else). -/
theorem scroll_zooms_orbit_only {α : Type} [LinearOrderedField α] (s : State α) (y : α)
    (hfree : ¬ (s.gui = true ∧ s.io.WantCaptureMouse = true)) :
    (s.s_camera.mode = CameraMode.Orbit →
      (glfw_scrollCallback s y).s_camera.orbit.distance =
        clamp (s.s_camera.orbit.distance - y) (1 / 10) 500) ∧
    (s.s_camera.mode = CameraMode.Orbit →
      1 / 10 ≤ s.s_camera.orbit.distance → s.s_camera.orbit.distance ≤ 500 →
      (glfw_scrollCallback s 1).s_camera.orbit.distance =
        max (s.s_camera.orbit.distance - 1) (1 / 10)) ∧
    (s.s_camera.mode = CameraMode.FirstPerson →
      (glfw_scrollCallback s y).s_camera.firstPerson = s.s_camera.firstPerson ∧
      (glfw_scrollCallback s y).s_camera.orbit = s.s_camera.orbit ∧
      glfw_scrollCallback s y = s) := by
  refine ⟨?_, ?_, ?_⟩
  · intro hm
    simp only [glfw_scrollCallback, if_neg hfree, hm, if_true, OrbitCamera.zoom]
    rw [sub_eq_add_neg]
  · intro hm _ hhi
    simp only [glfw_scrollCallback, if_neg hfree, hm, if_true, OrbitCamera.zoom, clamp]
    rw [← sub_eq_add_neg, min_eq_left (by linarith)]
  · intro hm
    have hne : ¬ s.s_camera.mode = CameraMode.Orbit := by rw [hm]; decide
    simp only [glfw_scrollCallback, if_neg hfree, if_neg hne, and_self]

/-- C6 on the initial state with the GUI hidden: one scroll-up takes the orbit
distance from 32 to 31. -/
theorem scroll_zooms_orbit_only_witness :
    ¬ ((State.init false : State ℚ).gui = true ∧
        (State.init false : State ℚ).io.WantCaptureMouse = true) ∧
    (State.init false : State ℚ).s_camera.mode = CameraMode.Orbit ∧
    (glfw_scrollCallback (State.init false : State ℚ) 1).s_camera.orbit.distance = 31 := by
  have hfree : ¬ ((State.init false : State ℚ).gui = true ∧
      (State.init false : State ℚ).io.WantCaptureMouse = true) := by
    simp [State.init]
  refine ⟨hfree, rfl, ?_⟩
  rw [(scroll_zooms_orbit_only (State.init false : State ℚ) 1 hfree).2.1 rfl
    (by norm_num [State.init, Camera.init, OrbitCamera.new])
    (by norm_num [State.init, Camera.init, OrbitCamera.new])]
  norm_num [State.init, Camera.init, OrbitCamera.new]

/-- C7: in first-person mode with the cursor captured, when W is the only
movement key held (no S, A, D, Q, E, no left shift), the per-frame camera
update for a frame of length `T` moves the position to
`position + forward * (5 * T)`, with `forward` taken at the current pitch and
yaw, and leaves pitch and yaw unchanged. -/
theorem updateCamera_W_only {α : Type} [Field α] (m : BxMath α) (s : State α) (T : α)
    (hmode : s.s_camera.mode = CameraMode.FirstPerson)
    (hcursor : s.cursor = CursorMode.disabled)
    (hW : s.s_keyDown GLFW_KEY_W = true)
    (hS : s.s_keyDown GLFW_KEY_S = false)
    (hA : s.s_keyDown GLFW_KEY_A = false)
    (hD : s.s_keyDown GLFW_KEY_D = false)
    (hQ : s.s_keyDown GLFW_KEY_Q = false)
    (hE : s.s_keyDown GLFW_KEY_E = false)
    (hShift : s.s_keyDown GLFW_KEY_LEFT_SHIFT = false) :
    (updateCamera m s T).s_camera.firstPerson.position =
      Vec3.add s.s_camera.firstPerson.position
        (Vec3.mul
          (axisFromEulerAngles m s.s_camera.firstPerson.pitch s.s_camera.firstPerson.yaw).forward
          (5 * T)) ∧
    (updateCamera m s T).s_camera.firstPerson.pitch = s.s_camera.firstPerson.pitch ∧
    (updateCamera m s T).s_camera.firstPerson.yaw = s.s_camera.firstPerson.yaw := by
  have hcond : s.s_camera.mode = CameraMode.FirstPerson ∧ s.cursor = CursorMode.disabled :=
    ⟨hmode, hcursor⟩
  have hF : frameDeltaForward s.s_keyDown T = 5 * T := by
    simp [frameDeltaForward, frameSpeed, hW, hS, hShift]
  have hR : frameDeltaRight s.s_keyDown T = 0 := by
    simp [frameDeltaRight, hA, hD]
  have hV : ∀ y : α, frameVertical s.s_keyDown T y = y := by
    intro y
    simp [frameVertical, hQ, hE]
  simp only [updateCamera, if_pos hcond, hF, hR, hV, FirstPersonCamera.move, Vec3.add,
    Vec3.mul, mul_zero, add_zero, and_self, and_true]

/-- C7 on the initial camera with W held for a frame of length 1: the camera
looks along +Z and ends at (0, 0, 5). -/
theorem updateCamera_W_only_witness :
    (State.holdingW : State ℝ).s_camera.mode = CameraMode.FirstPerson ∧
    (State.holdingW : State ℝ).cursor = CursorMode.disabled ∧
    (State.holdingW : State ℝ).s_keyDown GLFW_KEY_W = true ∧
    (updateCamera (BxMath.mk Real.sin Real.cos Real.pi)
      (State.holdingW : State ℝ) 1).s_camera.firstPerson.position = ⟨0, 0, 5⟩ := by
  refine ⟨rfl, rfl, by decide, ?_⟩
  rw [(updateCamera_W_only (BxMath.mk Real.sin Real.cos Real.pi) (State.holdingW : State ℝ) 1
    rfl rfl (by decide) (by decide) (by decide) (by decide) (by decide) (by decide)
    (by decide)).1]
  simp [State.holdingW, State.init, Camera.init, FirstPersonCamera.new, axisFromEulerAngles,
    toRad, Vec3.add, Vec3.mul]

theorem frameSpeed_shift {α : Type} [Field α] (k : Int → Bool) (b : Bool) (T : α) :
    frameSpeed (Function.update k GLFW_KEY_LEFT_SHIFT b) T = (if b then 20 else 5) * T := by
  simp [frameSpeed]

theorem frameDeltaForward_eq {α : Type} [Field α] (k : Int → Bool) (b : Bool) (T : α) :
    frameDeltaForward (Function.update k GLFW_KEY_LEFT_SHIFT b) T =
      ((if k GLFW_KEY_W then 1 else 0) - (if k GLFW_KEY_S then 1 else 0)) *
        ((if b then 20 else 5) * T) := by
  have hW : GLFW_KEY_W ≠ GLFW_KEY_LEFT_SHIFT := by decide
  have hS : GLFW_KEY_S ≠ GLFW_KEY_LEFT_SHIFT := by decide
  simp only [frameDeltaForward, frameSpeed_shift, Function.update_noteq hW,
    Function.update_noteq hS]
  cases b <;> cases k GLFW_KEY_W <;> cases k GLFW_KEY_S <;> simp

theorem frameDeltaRight_eq {α : Type} [Field α] (k : Int → Bool) (b : Bool) (T : α) :
    frameDeltaRight (Function.update k GLFW_KEY_LEFT_SHIFT b) T =
      ((if k GLFW_KEY_D then 1 else 0) - (if k GLFW_KEY_A then 1 else 0)) *
        ((if b then 20 else 5) * T) := by
  have hA : GLFW_KEY_A ≠ GLFW_KEY_LEFT_SHIFT := by decide
  have hD : GLFW_KEY_D ≠ GLFW_KEY_LEFT_SHIFT := by decide
  simp only [frameDeltaRight, frameSpeed_shift, Function.update_noteq hA,
    Function.update_noteq hD]
  cases b <;> cases k GLFW_KEY_A <;> cases k GLFW_KEY_D <;> simp

theorem frameVertical_eq {α : Type} [Field α] (k : Int → Bool) (b : Bool) (T y : α) :
    frameVertical (Function.update k GLFW_KEY_LEFT_SHIFT b) T y =
      y + ((if k GLFW_KEY_E then 1 else 0) - (if k GLFW_KEY_Q then 1 else 0)) *
        ((if b then 20 else 5) * T) := by
  have hQ : GLFW_KEY_Q ≠ GLFW_KEY_LEFT_SHIFT := by decide
  have hE : GLFW_KEY_E ≠ GLFW_KEY_LEFT_SHIFT := by decide
  simp only [frameVertical, frameSpeed_shift, Function.update_noteq hQ,
    Function.update_noteq hE]
  cases b <;> cases k GLFW_KEY_Q <;> cases k GLFW_KEY_E <;> simp <;> ring

/-- C8 as stated fails: with W held for a frame of length 1, the speed with
left shift held is 20, not 10, and the forward delta is 20 against 5 without
shift, which is not its double. -/
theorem shift_does_not_double :
    frameSpeed (Function.update (fun k => decide (k = GLFW_KEY_W)) GLFW_KEY_LEFT_SHIFT true)
      (1 : ℚ) ≠ 10 * 1 ∧
    frameDeltaForward
      (Function.update (fun k => decide (k = GLFW_KEY_W)) GLFW_KEY_LEFT_SHIFT true) (1 : ℚ) ≠
    2 * frameDeltaForward
      (Function.update (fun k => decide (k = GLFW_KEY_W)) GLFW_KEY_LEFT_SHIFT false) (1 : ℚ) := by
  rw [frameSpeed_shift, frameDeltaForward_eq, frameDeltaForward_eq]
  constructor <;> norm_num [GLFW_KEY_W, GLFW_KEY_S]

/-- C8 amended: in the per-frame camera update, holding left shift quadruples
the movement speed: for every frame length `T` and every set of held keys the
speed is `20 * T` with shift and `5 * T` without, the forward, right and
vertical deltas with shift are exactly four times those without, and the
first-person camera after a frame of length `T` with shift equals the one after
a frame of length `4 * T` without. -/
theorem shift_quadruples_speed {α : Type} [Field α] (m : BxMath α) (s : State α)
    (k : Int → Bool) (T : α) :
    frameSpeed (Function.update k GLFW_KEY_LEFT_SHIFT true) T = 20 * T ∧
    frameSpeed (Function.update k GLFW_KEY_LEFT_SHIFT false) T = 5 * T ∧
    frameDeltaForward (Function.update k GLFW_KEY_LEFT_SHIFT true) T =
      4 * frameDeltaForward (Function.update k GLFW_KEY_LEFT_SHIFT false) T ∧
    frameDeltaRight (Function.update k GLFW_KEY_LEFT_SHIFT true) T =
      4 * frameDeltaRight (Function.update k GLFW_KEY_LEFT_SHIFT false) T ∧
    (∀ y : α, frameVertical (Function.update k GLFW_KEY_LEFT_SHIFT true) T y - y =
      4 * (frameVertical (Function.update k GLFW_KEY_LEFT_SHIFT false) T y - y)) ∧
    (updateCamera m
        { s with s_keyDown := Function.update s.s_keyDown GLFW_KEY_LEFT_SHIFT true }
        T).s_camera.firstPerson =
      (updateCamera m
        { s with s_keyDown := Function.update s.s_keyDown GLFW_KEY_LEFT_SHIFT false }
        (4 * T)).s_camera.firstPerson := by
  refine ⟨?_, ?_, ?_, ?_, ?_, ?_⟩
  · simp [frameSpeed_shift]
  · simp [frameSpeed_shift]
  · rw [frameDeltaForward_eq, frameDeltaForward_eq]; simp; ring
  · rw [frameDeltaRight_eq, frameDeltaRight_eq]; simp; ring
  · intro y
    rw [frameVertical_eq, frameVertical_eq]; simp; ring
  · have e1 : (20 : α) * T = 5 * (4 * T) := by ring
    by_cases hc : s.s_camera.mode = CameraMode.FirstPerson ∧ s.cursor = CursorMode.disabled
    · simp only [updateCamera, if_pos hc, frameDeltaForward_eq, frameDeltaRight_eq,
        frameVertical_eq, if_true, Bool.false_eq_true, if_false, e1]
    · simp only [updateCamera, if_neg hc]

/-! ## Key toggle claim -/

/-- C9: a release of F2 leaves `g_options.gui` negated and a release of F1
leaves `s_showBgfxStats` negated; an event that is not a release (press,
repeat) leaves both flags unchanged whatever the key, an event of a key other
than F1 leaves the stats flag unchanged and an event of a key other than F2
leaves the GUI flag unchanged; so a press followed by a release inverts the
flag exactly once. -/
theorem key_toggle_inverts {α : Type} (s : State α) (key action : Int) :
    (glfw_keyCallback s GLFW_KEY_F2 GLFW_RELEASE).gui = !s.gui ∧
    (glfw_keyCallback s GLFW_KEY_F1 GLFW_RELEASE).s_showBgfxStats = !s.s_showBgfxStats ∧
    (action ≠ GLFW_RELEASE →
      (glfw_keyCallback s key action).gui = s.gui ∧
      (glfw_keyCallback s key action).s_showBgfxStats = s.s_showBgfxStats) ∧
    (key ≠ GLFW_KEY_F2 → (glfw_keyCallback s key action).gui = s.gui) ∧
    (key ≠ GLFW_KEY_F1 →
      (glfw_keyCallback s key action).s_showBgfxStats = s.s_showBgfxStats) ∧
    (glfw_keyCallback (glfw_keyCallback s GLFW_KEY_F2 GLFW_PRESS) GLFW_KEY_F2 GLFW_RELEASE).gui
      = !s.gui ∧
    (glfw_keyCallback (glfw_keyCallback s GLFW_KEY_F1 GLFW_PRESS) GLFW_KEY_F1
      GLFW_RELEASE).s_showBgfxStats = !s.s_showBgfxStats := by
  have gui_of : ∀ (t : State α) (k a : Int),
      (glfw_keyCallback t k a).gui =
        if a ≠ GLFW_REPEAT ∧ k = GLFW_KEY_F2 ∧ a = GLFW_RELEASE then !t.gui else t.gui := by
    intro t k a
    unfold glfw_keyCallback
    by_cases h1 : a = GLFW_REPEAT
    · rw [if_pos h1, if_neg (fun h => h.1 h1)]
    · rw [if_neg h1]
      show (if k = GLFW_KEY_F2 ∧ a = GLFW_RELEASE then !t.gui else t.gui) = _
      by_cases h4 : k = GLFW_KEY_F2 ∧ a = GLFW_RELEASE
      · rw [if_pos h4, if_pos ⟨h1, h4⟩]
      · rw [if_neg h4, if_neg (fun h => h4 h.2)]
  have stats_of : ∀ (t : State α) (k a : Int),
      (glfw_keyCallback t k a).s_showBgfxStats =
        if a ≠ GLFW_REPEAT ∧ k = GLFW_KEY_F1 ∧ a = GLFW_RELEASE then !t.s_showBgfxStats
        else t.s_showBgfxStats := by
    intro t k a
    unfold glfw_keyCallback
    by_cases h1 : a = GLFW_REPEAT
    · rw [if_pos h1, if_neg (fun h => h.1 h1)]
    · rw [if_neg h1]
      show (if k = GLFW_KEY_F1 ∧ a = GLFW_RELEASE then !t.s_showBgfxStats else t.s_showBgfxStats) = _
      by_cases h3 : k = GLFW_KEY_F1 ∧ a = GLFW_RELEASE
      · rw [if_pos h3, if_pos ⟨h1, h3⟩]
      · rw [if_neg h3, if_neg (fun h => h3 h.2)]
  have hrel : GLFW_RELEASE ≠ GLFW_REPEAT := by decide
  have hpr : GLFW_PRESS ≠ GLFW_RELEASE := by decide
  refine ⟨?_, ?_, ?_, ?_, ?_, ?_, ?_⟩
  · rw [gui_of, if_pos ⟨hrel, rfl, rfl⟩]
  · rw [stats_of, if_pos ⟨hrel, rfl, rfl⟩]
  · intro ha
    rw [gui_of, stats_of, if_neg (fun h => ha h.2.2), if_neg (fun h => ha h.2.2)]
    exact ⟨rfl, rfl⟩
  · intro hk
    rw [gui_of, if_neg (fun h => hk h.2.1)]
  · intro hk
    rw [stats_of, if_neg (fun h => hk h.2.1)]
  · rw [gui_of, if_pos ⟨hrel, rfl, rfl⟩, gui_of, if_neg (fun h => hpr h.2.2)]
  · rw [stats_of, if_pos ⟨hrel, rfl, rfl⟩, stats_of, if_neg (fun h => hpr h.2.2)]

/-! ## Common shader claim -/

theorem loadShader_some (g g1 : Bgfx) (id : ShaderId) (h : Handle)
    (hl : loadShader g id = some (h, g1)) :
    h = Handle.shader g.nextShader ∧ g1.nextShader = g.nextShader + 1 ∧
    g1.nextProgram = g.nextProgram ∧
    g1.calls = g.calls ++ [BgfxCall.createShader id h] := by
  unfold loadShader at hl
  split_ifs at hl
  simp only [Option.some.injEq, Prod.mk.injEq] at hl
  obtain ⟨h1, h2⟩ := hl
  subst h1
  subst h2
  exact ⟨rfl, rfl, rfl, rfl⟩

theorem commonShadersInit_some (g g1 : Bgfx) (cs : CommonShaders)
    (h : commonShadersInit g = some (cs, g1)) :
    cs = ⟨Handle.shader g.nextShader, Handle.shader (g.nextShader + 1),
      Handle.program g.nextProgram⟩ ∧
    g1.calls = g.calls ++
      [BgfxCall.createShader ShaderId.vs_position cs.vs_position,
       BgfxCall.createShader ShaderId.fs_color cs.fs_color,
       BgfxCall.createProgram cs.vs_position cs.fs_color cs.colorProgram] := by
  unfold commonShadersInit at h
  cases h1 : loadShader g ShaderId.vs_position with
  | none => simp [h1] at h
  | some r1 =>
    obtain ⟨vs, ga⟩ := r1
    cases h2 : loadShader ga ShaderId.fs_color with
    | none => simp [h1, h2] at h
    | some r2 =>
      obtain ⟨fs, gb⟩ := r2
      simp only [h1, h2, Option.some.injEq, Prod.mk.injEq] at h
      obtain ⟨hcs, hg⟩ := h
      obtain ⟨e1, n1, p1, c1⟩ := loadShader_some g ga _ vs h1
      obtain ⟨e2, n2, p2, c2⟩ := loadShader_some ga gb _ fs h2
      subst hcs
      subst hg
      refine ⟨?_, ?_⟩
      · simp only [e1, e2, n1, p1, p2]
      · simp [c1, c2]

/-- C10 as stated fails: on a fresh OpenGL backend `commonShadersInit` creates
shader 0 (`vs_position`), shader 1 (`fs_color`) and program 0 (`colorProgram`),
and `commonShadersShutdown` destroys them in that same order, which is not the
reverse of the creation order. -/
theorem commonShaders_not_destroyed_in_reverse :
    (commonShadersInit Bgfx.fresh).map
      (fun r => (createdHandles (callsSince Bgfx.fresh r.2),
        destroyedHandles (callsSince r.2 (commonShadersShutdown r.1 r.2)))) =
      some ([Handle.shader 0, Handle.shader 1, Handle.program 0],
        [Handle.shader 0, Handle.shader 1, Handle.program 0]) ∧
    [Handle.shader 0, Handle.shader 1, Handle.program 0] ≠
      List.reverse [Handle.shader 0, Handle.shader 1, Handle.program 0] := by
  constructor
  · rfl
  · decide

/-- C10 amended: when `commonShadersInit` succeeds, the handles it creates are,
in order, `vs_position`, `fs_color`, `colorProgram`; `commonShadersShutdown`
destroys exactly these handles in that same order (creation order, not its
reverse); the three handles are distinct, so each is created once and
destroyed once. -/
theorem commonShaders_destroyed_in_creation_order (g g1 : Bgfx) (cs : CommonShaders)
    (h : commonShadersInit g = some (cs, g1)) :
    createdHandles (callsSince g g1) = [cs.vs_position, cs.fs_color, cs.colorProgram] ∧
    (∀ g2 : Bgfx, destroyedHandles (callsSince g2 (commonShadersShutdown cs g2)) =
      [cs.vs_position, cs.fs_color, cs.colorProgram]) ∧
    (∀ g2 : Bgfx, createdHandles (callsSince g2 (commonShadersShutdown cs g2)) = []) ∧
    destroyedHandles (callsSince g g1) = [] ∧
    [cs.vs_position, cs.fs_color, cs.colorProgram].Nodup := by
  obtain ⟨hcs, hcalls⟩ := commonShadersInit_some g g1 cs h
  refine ⟨?_, ?_, ?_, ?_, ?_⟩
  · simp [callsSince, hcalls, createdHandles]
  · intro g2
    simp [callsSince, commonShadersShutdown, destroyedHandles]
  · intro g2
    simp [callsSince, commonShadersShutdown, createdHandles]
  · simp [callsSince, hcalls, destroyedHandles]
  · rw [hcs]
    simp

/-- C10 amended, on a fresh OpenGL backend: creation and destruction both run
shader 0, shader 1, program 0. -/
theorem commonShaders_destroyed_in_creation_order_witness :
    commonShadersInit Bgfx.fresh =
      some (⟨Handle.shader 0, Handle.shader 1, Handle.program 0⟩,
        { Bgfx.fresh with
          nextShader := 2
          nextProgram := 1
          calls :=
            [BgfxCall.createShader ShaderId.vs_position (Handle.shader 0),
             BgfxCall.createShader ShaderId.fs_color (Handle.shader 1),
             BgfxCall.createProgram (Handle.shader 0) (Handle.shader 1) (Handle.program 0)] }) ∧
    ∀ g2 : Bgfx,
      destroyedHandles (callsSince g2
        (commonShadersShutdown ⟨Handle.shader 0, Handle.shader 1, Handle.program 0⟩ g2)) =
      [Handle.shader 0, Handle.shader 1, Handle.program 0] :=
  ⟨rfl, (commonShaders_destroyed_in_creation_order Bgfx.fresh _ _ rfl).2.1⟩

/-! ## Mouse-look claim -/

theorem mouseButton_cursor {α : Type} (t : State α) (a : Int) :
    (glfw_mouseButtonCallback t 0 a).cursor =
      if t.gui = true then
        (if a = GLFW_PRESS ∧ ¬ t.io.WantCaptureMouse = true then CursorMode.disabled
          else if t.cursor = CursorMode.disabled ∧ a = GLFW_RELEASE then CursorMode.normal
          else t.cursor)
      else
        (if a = GLFW_PRESS then CursorMode.disabled
          else if t.cursor = CursorMode.disabled ∧ a = GLFW_RELEASE then CursorMode.normal
          else t.cursor) := by
  unfold glfw_mouseButtonCallback
  rw [if_neg (by simp)]
  by_cases hg : t.gui = true
  · rw [if_pos hg, if_pos hg]
  · rw [if_neg hg, if_neg hg]

/-- C11: in `glfw_mouseButtonCallback`, a left-button press while the GUI does
not want the mouse (GUI hidden, or visible with `WantCaptureMouse` false)
leaves the cursor disabled; a left-button press while the visible GUI wants
the mouse leaves the cursor mode unchanged; a left-button release always
leaves the cursor in normal mode; and an event of any other button changes
nothing. -/
theorem mouseButton_look_machine {α : Type} (s : State α) (button action : Int) :
    (¬ (s.gui = true ∧ s.io.WantCaptureMouse = true) →
      (glfw_mouseButtonCallback s 0 GLFW_PRESS).cursor = CursorMode.disabled) ∧
    (s.gui = true → s.io.WantCaptureMouse = true →
      (glfw_mouseButtonCallback s 0 GLFW_PRESS).cursor = s.cursor) ∧
    (glfw_mouseButtonCallback s 0 GLFW_RELEASE).cursor = CursorMode.normal ∧
    (button ≠ 0 → glfw_mouseButtonCallback s button action = s) := by
  have hrp : ¬ GLFW_RELEASE = GLFW_PRESS := by decide
  have hpr : ¬ GLFW_PRESS = GLFW_RELEASE := by decide
  refine ⟨?_, ?_, ?_, ?_⟩
  · intro hfree
    rw [mouseButton_cursor]
    by_cases hg : s.gui = true
    · have hw : ¬ s.io.WantCaptureMouse = true := fun h => hfree ⟨hg, h⟩
      rw [if_pos hg, if_pos ⟨rfl, hw⟩]
    · rw [if_neg hg, if_pos rfl]
  · intro hg hw
    rw [mouseButton_cursor, if_pos hg, if_neg (fun h => h.2 hw), if_neg (fun h => hpr h.2)]
  · rw [mouseButton_cursor]
    have hrel : (if s.cursor = CursorMode.disabled ∧ GLFW_RELEASE = GLFW_RELEASE then
        CursorMode.normal else s.cursor) = CursorMode.normal := by
      cases hc : s.cursor with
      | normal => rw [if_neg (fun h => by cases h.1)]
      | disabled => rw [if_pos ⟨rfl, rfl⟩]
    by_cases hg : s.gui = true
    · rw [if_pos hg, if_neg (fun h => hrp h.1), hrel]
    · rw [if_neg hg, if_neg hrp, hrel]
  · intro hb
    unfold glfw_mouseButtonCallback
    rw [if_pos hb]

/-- C11 on the initial state with the GUI hidden: a left press captures the
cursor, and the release that follows gives it back. -/
theorem mouseButton_look_machine_witness :
    ¬ ((State.init false : State ℚ).gui = true ∧
        (State.init false : State ℚ).io.WantCaptureMouse = true) ∧
    (glfw_mouseButtonCallback (State.init false : State ℚ) 0 GLFW_PRESS).cursor =
      CursorMode.disabled ∧
    (glfw_mouseButtonCallback
      (glfw_mouseButtonCallback (State.init false : State ℚ) 0 GLFW_PRESS) 0
      GLFW_RELEASE).cursor = CursorMode.normal := by
  have hfree : ¬ ((State.init false : State ℚ).gui = true ∧
      (State.init false : State ℚ).io.WantCaptureMouse = true) := by
    simp [State.init]
  exact ⟨hfree,
    (mouseButton_look_machine (State.init false : State ℚ) 0 GLFW_PRESS).1 hfree,
    (mouseButton_look_machine
      (glfw_mouseButtonCallback (State.init false : State ℚ) 0 GLFW_PRESS) 0
      GLFW_PRESS).2.2.1⟩

end Viewer
